import Mathlib

/-!
Verification development for the cf-router-acceptance-tests repository.

This file gives a shallow embedding, in Lean, of the functions of the
repository that the verified properties talk about:

* the configuration loaders of src/helpers/test_helpers.go and of the
  second helpers package (RouterApiConfig);
* the TCP connection oracle (checkConnection, verifyConnection), the
  mapping configuration (configureMapping) and the load-balancing test
  oracle of src/assets/golangtls/site.go (second document: router suite);
* the statsd test oracle of
  src/vendor/code.cloudfoundry.org/routing-api/cmd/routing-api/stats_test.go;
* the etcd-backed database operations of the vendored routing-api db
  package (SaveRoute, SaveTcpRouteMapping, ReadRoutes,
  ReadTcpRouteMappings, SaveRouterGroup) found in the same vendored file;
* the certificate-template generator of src/assets/golangtls/site.go.

External effects (etcd responses, the network, the clock, random bytes,
JSON unmarshalling of stored blobs) are passed in as explicit
environment values, so that every definition is executable and each
control path of the Go source is represented by a branch of the Lean
definition.
-/

namespace CfRouting

/-! ## Configuration loading (claim C2)

Embeds LoadConfig of src/helpers/test_helpers.go lines 43 to 66 and
LoadConfig of the RouterApiConfig helpers package
(src/unnamed/part_000 lines 18 to 34).  A Go panic is modelled as the
error branch of an Except value; the already-decoded JSON configuration
is the input. -/

/-- The oauth section of the routing test configuration, as in
test_helpers.go. -/
structure OAuthConfig where
  tokenEndpoint : String
  clientName : String
  clientSecret : String
  port : Int
deriving DecidableEq

/-- The decoded routing test configuration: the JSON fields of
RoutingConfig together with AppsDomain and ApiEndpoint, which come from
the embedded cf-test-helpers config. -/
structure RoutingConfigIn where
  oauth : Option OAuthConfig
  addresses : List String
  includeHttpRoutes : Bool
  tcpAppDomain : String
  lbConfigured : Bool
  appsDomain : String
  apiEndpoint : String
deriving DecidableEq

/-- The configuration returned by a successful LoadConfig: the input
plus the derived RoutingApiUrl field. -/
structure RoutingConfigLoaded where
  base : RoutingConfigIn
  routingApiUrl : String
deriving DecidableEq

/-- The reasons for which either configuration loader aborts. -/
inductive ConfigPanic where
  | missingOauth
  | missingAddresses
  | missingAppsDomain
  | missingApi
  | missingAddress
  | missingPort
deriving DecidableEq

/-- True exactly when the loader aborted (panicked). -/
def panicked {α : Type} (e : Except ConfigPanic α) : Bool :=
  match e with
  | Except.error _ => true
  | Except.ok _ => false

/-- LoadConfig of src/helpers/test_helpers.go: validates the decoded
configuration, aborting on each missing required field in source order,
then derives RoutingApiUrl from the api endpoint. -/
def LoadRoutingConfig (c : RoutingConfigIn) : Except ConfigPanic RoutingConfigLoaded :=
  if c.oauth = none then Except.error ConfigPanic.missingOauth
  else if c.addresses.length = 0 then Except.error ConfigPanic.missingAddresses
  else if c.appsDomain = "" then Except.error ConfigPanic.missingAppsDomain
  else if c.apiEndpoint = "" then Except.error ConfigPanic.missingApi
  else Except.ok { base := c, routingApiUrl := "https://" ++ c.apiEndpoint }

/-- The decoded RouterApiConfig of the second helpers package. -/
structure RouterApiConfig where
  address : String
  port : Nat
  bbsAddress : String
deriving DecidableEq

/-- Default BBS API url substituted when the field is absent. -/
def DEFAULT_BBS_API_URL : String := "http://bbs.service.cf.internal:8889"

/-- LoadConfig of the RouterApiConfig helpers package: aborts when
address is empty or port is zero, and defaults the BBS address. -/
def LoadRouterApiConfig (c : RouterApiConfig) : Except ConfigPanic RouterApiConfig :=
  if c.address = "" then Except.error ConfigPanic.missingAddress
  else if c.port = 0 then Except.error ConfigPanic.missingPort
  else if c.bbsAddress = "" then Except.ok { c with bbsAddress := DEFAULT_BBS_API_URL }
  else Except.ok c

/-! ## The TCP echo oracle (claims C3 and C5)

Embeds checkConnection (site.go router document, lines 228 to 257) and
verifyConnection (lines 259 to 281).  One call of checkConnection is
determined by its environment: the outcomes of the dial, write, read
and close system calls, the nanosecond clock sample, and the bytes that
the read left in the buffer. -/

/-- Environment of a single checkConnection attempt. -/
structure ConnEnv where
  dialErr : Option String
  nano : Nat
  writeErr : Option String
  readErr : Option String
  buff : String
  closeErr : Option String
deriving DecidableEq

/-- The error values a checkConnection attempt can put on its channel. -/
inductive ConnErr where
  | dial (e : String)
  | write (e : String)
  | read (e : String)
  | mismatch (actual expected : String)
  | close (e : String)
deriving DecidableEq

/-- The message sent by checkConnection for a given nanosecond sample. -/
def connMessage (nano : Nat) : String := "Time is " ++ toString nano

/-- The reply checkConnection expects: serverId, a colon, the message. -/
def expectedMessage (serverId : String) (nano : Nat) : String :=
  serverId ++ ":" ++ connMessage nano

/-- checkConnection of site.go: dial, write the timestamped message,
read back, compare with the expected echo; the value sent on the error
channel (none is the nil error of a successful close). -/
def checkConnection (env : ConnEnv) (serverId : String) : Option ConnErr :=
  match env.dialErr with
  | some e => some (ConnErr.dial e)
  | none =>
    match env.writeErr with
    | some e => some (ConnErr.write e)
    | none =>
      match env.readErr with
      | some e => some (ConnErr.read e)
      | none =>
        if env.buff = expectedMessage serverId env.nano then
          match env.closeErr with
          | some e => some (ConnErr.close e)
          | none => none
        else some (ConnErr.mismatch env.buff (expectedMessage serverId env.nano))

/-- The retry loop of verifyConnection: attempt i receives the channel
value res i; a nil error ends the loop, an error retries while i is
below 10 and otherwise fails the test with that error.  Returns none
for success and the reported error on assertion failure. -/
def verifyLoop (res : Nat → Option String) (i : Nat) : Option String :=
  match res i with
  | none => none
  | some e => if h : i < 10 then verifyLoop res (i + 1) else some e
termination_by 10 - i
decreasing_by
  simp_wf
  omega

/-- Number of checkConnection attempts consumed by the loop from
attempt index i. -/
def verifyAttempts (res : Nat → Option String) (i : Nat) : Nat :=
  match res i with
  | none => 1
  | some _ => if h : i < 10 then 1 + verifyAttempts res (i + 1) else 1
termination_by 10 - i
decreasing_by
  simp_wf
  omega

/-- verifyConnection of site.go, run over a sequence of attempt
outcomes. -/
def verifyConnection (res : Nat → Option String) : Option String := verifyLoop res 0

/-- Total number of checkConnection attempts of one verifyConnection
call. -/
def verifyConnectionAttempts (res : Nat → Option String) : Nat := verifyAttempts res 0

/-! ## The statsd test oracle (claim C4)

Embeds the route-deletion and route-expiry specs of stats_test.go lines
118 to 138: two successive Eventually Receive expectations on the fake
statsd channel.  A Receive(Equal(s)) expectation consumes channel items
until one equals s, and fails when the channel is exhausted first. -/

/-- The statsd gauge line for a route addition. -/
def totalRoutesPlus : String := "routing_api.total_http_routes:+1|g"

/-- The statsd gauge line for a route removal. -/
def totalRoutesMinus : String := "routing_api.total_http_routes:-1|g"

/-- Consume items until one equals s; return the remaining items. -/
def receiveUntil (s : String) : List String → Option (List String)
  | [] => none
  | x :: xs => if x = s then some xs else receiveUntil s xs

/-- The oracle of the deletion and expiry specs: a plus line must be
received, and afterwards a minus line. -/
def statsDeleteOracle (lines : List String) : Bool :=
  match receiveUntil totalRoutesPlus lines with
  | none => false
  | some rest => (receiveUntil totalRoutesMinus rest).isSome

/-! ## The load-balancing oracle (claim C6)

Embeds the load-balances-the-connections spec of site.go lines 355 to
374.  Each sendAndReceive exchange is served by one backend; the
sample receiver echoes its server id, a colon and the received message,
the format checkConnection expects in the same file. -/

/-- The message sent by both exchanges of the load-balancing spec. -/
def sendMessage : String := "Hello"

/-- The echo a sample receiver with the given server id answers. -/
def backendEcho (serverId msg : String) : String := serverId ++ ":" ++ msg

/-- The response of one sendAndReceive exchange served by the backend
with the given server id. -/
def sendAndReceive (servingId : String) : String := backendEcho servingId sendMessage

/-- The assertion of the spec: the two consecutive responses must not
be equal. -/
def loadBalanceOracle (servingId1 servingId2 : String) : Bool :=
  sendAndReceive servingId1 != sendAndReceive servingId2

/-! ## configureMapping (claim C7)

Embeds configureMapping of site.go lines 206 to 226: build one
MappingRequest holding one BackendHostInfo per backend port, POST it to
the v0 external ports endpoint, and require a 200 response. -/

/-- cf_tcp_router.BackendHostInfo. -/
structure BackendHostInfo where
  address : String
  port : Nat
deriving DecidableEq

/-- cf_tcp_router.NewBackendHostInfo. -/
def NewBackendHostInfo (address : String) (port : Nat) : BackendHostInfo :=
  { address := address, port := port }

/-- cf_tcp_router.MappingRequest. -/
structure MappingRequest where
  externalPort : Nat
  backends : List BackendHostInfo
deriving DecidableEq

/-- cf_tcp_router.NewMappingRequest. -/
def NewMappingRequest (externalPort : Nat) (backends : List BackendHostInfo) : MappingRequest :=
  { externalPort := externalPort, backends := backends }

/-- The backends slice built by the loop over backendPorts. -/
def buildBackends (externalIP : String) (backendPorts : List Nat) : List BackendHostInfo :=
  backendPorts.foldl (fun acc p => acc ++ [NewBackendHostInfo externalIP p]) []

/-- The MappingRequests value configureMapping marshals and posts. -/
def configureMappingRequests (externalIP : String) (externalPort : Nat)
    (backendPorts : List Nat) : List MappingRequest :=
  [NewMappingRequest externalPort (buildBackends externalIP backendPorts)]

/-- The url configureMapping posts to. -/
def externalPortsUrl (address : String) (port : Nat) : String :=
  "http://" ++ address ++ ":" ++ toString port ++ "/v0/external_ports"

/-- Environment of the marshal and POST steps of configureMapping. -/
structure PostEnv where
  marshalErr : Option String
  postErr : Option String
  statusCode : Nat
deriving DecidableEq

/-- Outcome of a Ginkgo assertion block. -/
inductive TestOutcome where
  | pass
  | fail
deriving DecidableEq

/-- The assertions of configureMapping: a marshal error, a transport
error or a status other than 200 fail the test. -/
def configureMapping (env : PostEnv) : TestOutcome :=
  match env.marshalErr with
  | some _ => TestOutcome.fail
  | none =>
    match env.postErr with
    | some _ => TestOutcome.fail
    | none => if env.statusCode = 200 then TestOutcome.pass else TestOutcome.fail

/-! ## The vendored etcd database (claims C1, C8, C9)

Embeds the db package vendored under
src/vendor/code.cloudfoundry.org/routing-api/cmd/routing-api/ (second
document of stats_test.go).  etcd itself is external: every Get or Set
outcome, and the success of every json.Unmarshal of a stored blob, is
provided by the environment of the call. -/

/-- Errors observable around the etcd client calls: a client.Error with
its code, a json unmarshal failure, a modification-tag creation
failure, or any other error. -/
inductive EtcdError where
  | clientError (code : Nat)
  | unmarshalError
  | tagError
  | otherError (msg : String)
deriving DecidableEq

/-- client.ErrorCodeKeyNotFound of the coreos etcd client. -/
def ErrorCodeKeyNotFound : Nat := 100

/-- client.ErrorCodeTestFailed of the coreos etcd client, the
compare-and-swap failure code. -/
def ErrorCodeTestFailed : Nat := 101

/-- maxRetries of the db package. -/
def maxRetries : Nat := 3

/-- The Go type assertion err.(client.Error) followed by a code
comparison. -/
def isClientErrorWithCode (e : Option EtcdError) (code : Nat) : Bool :=
  match e with
  | some (EtcdError.clientError c) => c == code
  | _ => false

/-- Result of SaveRoute or SaveTcpRouteMapping: nil, the ErrorConflict
sentinel, or a propagated error. -/
inductive SaveOutcome where
  | success
  | conflict
  | errorOut (e : EtcdError)
deriving DecidableEq

/-- Environment of one iteration of the save retry loop: whether the
Get returned a response, the Get error, whether the stored blob
unmarshals, the Set outcome of the update path, whether
NewModificationTag succeeds, and the Set outcome of the create path. -/
structure SaveIterEnv where
  getRespPresent : Bool
  getErr : Option EtcdError
  unmarshalOk : Bool
  setUpdateErr : Option EtcdError
  tagOk : Bool
  setCreateErr : Option EtcdError
deriving DecidableEq

/-- The branch dispatch of one SaveRoute iteration: update when the Get
succeeded, create when the key was absent (conflict on a retry), else
fall through.  Sum.inl is an early return or break, Sum.inr carries the
err value reaching the retry check. -/
def saveRouteBranch (it : SaveIterEnv) (retries : Nat) : Sum SaveOutcome (Option EtcdError) :=
  if it.getRespPresent ∧ it.getErr = none then
    if it.unmarshalOk then
      match it.setUpdateErr with
      | none => Sum.inl SaveOutcome.success
      | some e => Sum.inr (some e)
    else Sum.inl (SaveOutcome.errorOut EtcdError.unmarshalError)
  else if isClientErrorWithCode it.getErr ErrorCodeKeyNotFound then
    if 0 < retries then Sum.inl SaveOutcome.conflict
    else if it.tagOk then
      match it.setCreateErr with
      | none => Sum.inl SaveOutcome.success
      | some e => Sum.inr (some e)
    else Sum.inl (SaveOutcome.errorOut EtcdError.tagError)
  else Sum.inr it.getErr

/-- One full SaveRoute iteration: the branch, then the retry check that
retries only on a compare-and-swap failure.  none asks for a retry. -/
def saveRouteStep (it : SaveIterEnv) (retries : Nat) : Option SaveOutcome :=
  match saveRouteBranch it retries with
  | Sum.inl out => some out
  | Sum.inr e =>
    if isClientErrorWithCode e ErrorCodeTestFailed then none
    else
      match e with
      | none => some SaveOutcome.success
      | some err => some (SaveOutcome.errorOut err)

/-- The branch dispatch of one SaveTcpRouteMapping iteration; the Set
error of either path falls through to the shared success check. -/
def saveTcpBranch (it : SaveIterEnv) (retries : Nat) : Sum SaveOutcome (Option EtcdError) :=
  if it.getRespPresent ∧ it.getErr = none then
    if it.unmarshalOk then Sum.inr it.setUpdateErr
    else Sum.inl (SaveOutcome.errorOut EtcdError.unmarshalError)
  else if isClientErrorWithCode it.getErr ErrorCodeKeyNotFound then
    if 0 < retries then Sum.inl SaveOutcome.conflict
    else if it.tagOk then Sum.inr it.setCreateErr
    else Sum.inl (SaveOutcome.errorOut EtcdError.tagError)
  else Sum.inr it.getErr

/-- One full SaveTcpRouteMapping iteration: return nil when create or
update succeeded, retry only on a compare-and-swap failure. -/
def saveTcpStep (it : SaveIterEnv) (retries : Nat) : Option SaveOutcome :=
  match saveTcpBranch it retries with
  | Sum.inl out => some out
  | Sum.inr none => some SaveOutcome.success
  | Sum.inr (some err) =>
    if isClientErrorWithCode (some err) ErrorCodeTestFailed then none
    else some (SaveOutcome.errorOut err)

/-- The shared retry loop shape of both save operations.  Each
continuing iteration increments retries, so within one call the retry
counter equals the iteration index; the fuel is the number of loop
iterations the guard retries less-or-equal maxRetries still allows, and
exhausting it is the post-loop ErrorConflict return. -/
def retryLoop (step : SaveIterEnv → Nat → Option SaveOutcome)
    (env : Nat → SaveIterEnv) : Nat → Nat → SaveOutcome
  | _, 0 => SaveOutcome.conflict
  | retries, fuel + 1 =>
    match step (env retries) retries with
    | some out => out
    | none => retryLoop step env (retries + 1) fuel

/-- Number of loop iterations (etcd read-modify-write attempts) a save
call performs. -/
def retryAttempts (step : SaveIterEnv → Nat → Option SaveOutcome)
    (env : Nat → SaveIterEnv) : Nat → Nat → Nat
  | _, 0 => 0
  | retries, fuel + 1 =>
    match step (env retries) retries with
    | some _ => 1
    | none => 1 + retryAttempts step env (retries + 1) fuel

/-- SaveRoute of the vendored db package, over the per-iteration
environment. -/
def SaveRoute (env : Nat → SaveIterEnv) : SaveOutcome :=
  retryLoop saveRouteStep env 0 (maxRetries + 1)

/-- SaveTcpRouteMapping of the vendored db package. -/
def SaveTcpRouteMapping (env : Nat → SaveIterEnv) : SaveOutcome :=
  retryLoop saveTcpStep env 0 (maxRetries + 1)

/-- Iteration environment whose update write always fails the
compare-and-swap. -/
def envAllTestFailed : SaveIterEnv :=
  { getRespPresent := true
    getErr := none
    unmarshalOk := true
    setUpdateErr := some (EtcdError.clientError ErrorCodeTestFailed)
    tagOk := true
    setCreateErr := none }

/-- models.Route, restricted to the fields the embedded operations
inspect or construct. -/
structure Route where
  route : String
  port : Nat
  ip : String
  logGuid : String
  routeServiceUrl : String
  ttl : Nat
deriving DecidableEq

/-- models.TcpRouteMapping, restricted likewise. -/
structure TcpRouteMapping where
  routerGroupGuid : String
  externalPort : Nat
  hostIP : String
  hostPort : Nat
  ttl : Nat
deriving DecidableEq

/-- The loop of ReadRoutes over the child nodes: an unmarshal failure
abandons everything read so far and yields the empty list with a nil
error. -/
def readRoutesLoop (unmarshal : String → Option Route) :
    List String → List Route → Except EtcdError (List Route)
  | [], acc => Except.ok acc
  | v :: rest, acc =>
    match unmarshal v with
    | none => Except.ok []
    | some r => readRoutesLoop unmarshal rest (acc ++ [r])

/-- ReadRoutes of the vendored db package: a Get error yields the empty
list with a nil error, otherwise the nodes are unmarshalled in turn. -/
def ReadRoutes (unmarshal : String → Option Route)
    (getResult : Except EtcdError (List String)) : Except EtcdError (List Route) :=
  match getResult with
  | Except.error _ => Except.ok []
  | Except.ok nodeValues => readRoutesLoop unmarshal nodeValues []

/-- Innermost loop of ReadTcpRouteMappings, over mapping nodes; none
signals the early empty-list return. -/
def readTcpMappingNodes (unmarshal : String → Option TcpRouteMapping) :
    List String → List TcpRouteMapping → Option (List TcpRouteMapping)
  | [], acc => some acc
  | v :: rest, acc =>
    match unmarshal v with
    | none => none
    | some m => readTcpMappingNodes unmarshal rest (acc ++ [m])

/-- Middle loop of ReadTcpRouteMappings, over external-port nodes. -/
def readTcpPortNodes (unmarshal : String → Option TcpRouteMapping) :
    List (List String) → List TcpRouteMapping → Option (List TcpRouteMapping)
  | [], acc => some acc
  | g :: rest, acc =>
    match readTcpMappingNodes unmarshal g acc with
    | none => none
    | some acc2 => readTcpPortNodes unmarshal rest acc2

/-- Outer loop of ReadTcpRouteMappings, over router-group nodes. -/
def readTcpGroupNodes (unmarshal : String → Option TcpRouteMapping) :
    List (List (List String)) → List TcpRouteMapping → Option (List TcpRouteMapping)
  | [], acc => some acc
  | g :: rest, acc =>
    match readTcpPortNodes unmarshal g acc with
    | none => none
    | some acc2 => readTcpGroupNodes unmarshal rest acc2

/-- ReadTcpRouteMappings of the vendored db package: a Get error or any
unmarshal failure yields the empty list with a nil error. -/
def ReadTcpRouteMappings (unmarshal : String → Option TcpRouteMapping)
    (getResult : Except EtcdError (List (List (List String)))) :
    Except EtcdError (List TcpRouteMapping) :=
  match getResult with
  | Except.error _ => Except.ok []
  | Except.ok tree =>
    match readTcpGroupNodes unmarshal tree [] with
    | none => Except.ok []
    | some mappings => Except.ok mappings

/-- models.RouterGroup, restricted to the fields SaveRouterGroup
inspects. -/
structure RouterGroup where
  guid : String
  name : String
deriving DecidableEq

/-- The errors SaveRouterGroup can return: its three validation
rejections, and any etcd or unmarshal error propagated from the read
and write calls it performs. -/
inductive SaveRouterGroupError where
  | missingGuid
  | uniqueField (name : String)
  | nonUpdatableField
  | etcdError (e : EtcdError)
deriving DecidableEq

/-- Environment of one SaveRouterGroup call.  etcd is the store; the
environment injects the failures the source has to live with: a failed
Get of the router-groups base key, a stored blob that does not
unmarshal, a failed Get of the group's own key, and the outcome of the
final Set. -/
structure RouterGroupEnv where
  readGroupsErr : Option EtcdError
  unmarshalGroupOk : RouterGroup → Bool
  getOwnErr : Option EtcdError
  setErr : Option EtcdError

/-- The etcd Set of a router group under its guid key: overwrite the
entry with that guid, or append a new one. -/
def etcdSet (store : List RouterGroup) (rg : RouterGroup) : List RouterGroup :=
  if ∃ g ∈ store, g.guid = rg.guid then
    store.map (fun g => if g.guid = rg.guid then rg else g)
  else store ++ [rg]

/-- The loop of ReadRouterGroups over the child nodes: unlike
ReadRoutes, an unmarshal failure is returned as an error. -/
def readRouterGroupsLoop (unmarshalOk : RouterGroup → Bool) :
    List RouterGroup → List RouterGroup → Except EtcdError (List RouterGroup)
  | [], acc => Except.ok acc
  | g :: rest, acc =>
    if unmarshalOk g then readRouterGroupsLoop unmarshalOk rest (acc ++ [g])
    else Except.error EtcdError.unmarshalError

/-- ReadRouterGroups of the vendored db package: a key-not-found Get of
the base key yields the empty list with a nil error, any other Get
error or unmarshal failure is returned, and otherwise the stored
groups are returned. -/
def ReadRouterGroups (store : List RouterGroup) (env : RouterGroupEnv) :
    Except EtcdError (List RouterGroup) :=
  match env.readGroupsErr with
  | some e =>
    if isClientErrorWithCode (some e) ErrorCodeKeyNotFound then Except.ok []
    else Except.error e
  | none => readRouterGroupsLoop env.unmarshalGroupOk store []

/-- The etcd Get of the group's own key: the injected failure when
present, the stored group with that guid when it exists, and the
key-not-found error otherwise. -/
def getRouterGroupKey (store : List RouterGroup) (env : RouterGroupEnv) (rg : RouterGroup) :
    Except EtcdError RouterGroup :=
  match env.getOwnErr with
  | some e => Except.error e
  | none =>
    match store.find? (fun g => g.guid == rg.guid) with
    | some current => Except.ok current
    | none => Except.error (EtcdError.clientError ErrorCodeKeyNotFound)

/-- The final Set of SaveRouterGroup: its error is returned unchanged
and leaves the store as it was; on success the group is written. -/
def writeRouterGroup (store : List RouterGroup) (env : RouterGroupEnv) (rg : RouterGroup) :
    List RouterGroup × Option SaveRouterGroupError :=
  match env.setErr with
  | some e => (store, some (SaveRouterGroupError.etcdError e))
  | none => (etcdSet store rg, none)

/-- The Get-then-compare stage of SaveRouterGroup: only when the Get of
the group's own key succeeds is the stored blob unmarshalled (a
failure being returned) and a name change rejected; on any Get error,
key-not-found or not, the source skips the check and writes. -/
def saveRouterGroupUpdateCheck (store : List RouterGroup) (env : RouterGroupEnv)
    (rg : RouterGroup) :
    Except EtcdError RouterGroup → List RouterGroup × Option SaveRouterGroupError
  | Except.ok current =>
    if env.unmarshalGroupOk current then
      if rg.name ≠ current.name then (store, some SaveRouterGroupError.nonUpdatableField)
      else writeRouterGroup store env rg
    else (store, some (SaveRouterGroupError.etcdError EtcdError.unmarshalError))
  | Except.error _ => writeRouterGroup store env rg

/-- The stages of SaveRouterGroup entered once the stored groups were
read: the uniqueness check over the groups read, then the Get of the
group's own key and the stages after it. -/
def saveRouterGroupChecks (store : List RouterGroup) (env : RouterGroupEnv) (rg : RouterGroup)
    (routerGroups : List RouterGroup) : List RouterGroup × Option SaveRouterGroupError :=
  if ∃ g ∈ routerGroups, g.guid ≠ rg.guid ∧ g.name = rg.name then
    (store, some (SaveRouterGroupError.uniqueField rg.name))
  else saveRouterGroupUpdateCheck store env rg (getRouterGroupKey store env rg)

/-- The dispatch of SaveRouterGroup on the result of ReadRouterGroups:
its error is returned unchanged. -/
def saveRouterGroupAfterRead (store : List RouterGroup) (env : RouterGroupEnv)
    (rg : RouterGroup) :
    Except EtcdError (List RouterGroup) → List RouterGroup × Option SaveRouterGroupError
  | Except.error e => (store, some (SaveRouterGroupError.etcdError e))
  | Except.ok routerGroups => saveRouterGroupChecks store env rg routerGroups

/-- SaveRouterGroup of the vendored db package: reject an empty guid,
propagate a failed read of the stored groups, reject a name held under
another guid, and, only when the Get of the group's own key succeeds,
reject a name change of that group; then write, returning any Set
error. -/
def SaveRouterGroup (store : List RouterGroup) (env : RouterGroupEnv) (rg : RouterGroup) :
    List RouterGroup × Option SaveRouterGroupError :=
  if rg.guid = "" then (store, some SaveRouterGroupError.missingGuid)
  else saveRouterGroupAfterRead store env rg (ReadRouterGroups store env)

/-- A one-element store used to instantiate the SaveRouterGroup
characterisation. -/
def rgStoreW : List RouterGroup := [{ guid := "guid-one", name := "name-one" }]

/-- A group whose name collides with the stored one under another
guid. -/
def rgW : RouterGroup := { guid := "guid-two", name := "name-one" }

/-- A group that renames the stored guid-one group. -/
def rgRenameW : RouterGroup := { guid := "guid-one", name := "name-two" }

/-- An environment with no injected failures. -/
def rgEnvClean : RouterGroupEnv :=
  { readGroupsErr := none
    unmarshalGroupOk := fun _ => true
    getOwnErr := none
    setErr := none }

/-- An environment whose Get of the group's own key fails
transiently. -/
def rgEnvGetFail : RouterGroupEnv :=
  { readGroupsErr := none
    unmarshalGroupOk := fun _ => true
    getOwnErr := some (EtcdError.otherError "etcd timeout")
    setErr := none }

/-! ## CertTemplate (claim C10)

Embeds CertTemplate of src/assets/golangtls/site.go lines 144 to 162.
rand.Int over the limit 1 shifted left by 128 is modelled as the
entropy reduced modulo that limit; the two separate time.Now() calls of
the source are the two clock samples now1 and now2. -/

/-- The serial number limit, 1 shifted left by 128. -/
def serialNumberLimit : Nat := 2 ^ 128

/-- time.Hour in nanoseconds, the unit of the modelled clock. -/
def timeHour : Nat := 3600 * 1000000000

/-- Model of rand.Int(rand.Reader, limit): a value in the interval from
zero up to, excluding, the limit. -/
def randInt (entropy limit : Nat) : Nat := entropy % limit

/-- The fields of the x509 certificate template that CertTemplate
fills. -/
structure CertTemplateData where
  serialNumber : Nat
  organization : List String
  notBefore : Nat
  notAfter : Nat
deriving DecidableEq

/-- CertTemplate of site.go: a random serial below the limit, NotBefore
from the first time.Now() call, NotAfter one hour after the second
time.Now() call. -/
def CertTemplate (entropy now1 now2 : Nat) : CertTemplateData :=
  { serialNumber := randInt entropy serialNumberLimit
    organization := ["Ninoski, Inc."]
    notBefore := now1
    notAfter := now2 + timeHour }

/-! ## Theorems -/

/-- C2: both configuration loaders abort exactly when a required field
is missing: LoadConfig of test_helpers.go when the oauth section is
nil, the addresses list is empty, apps_domain is empty or api is empty,
and the RouterApiConfig loader when address is empty or port is zero;
otherwise both return normally. -/
theorem loadConfig_panics_iff (c : RoutingConfigIn) (r : RouterApiConfig) :
    (panicked (LoadRoutingConfig c) = true ↔
      c.oauth = none ∨ c.addresses = [] ∨ c.appsDomain = "" ∨ c.apiEndpoint = "") ∧
    (panicked (LoadRouterApiConfig r) = true ↔ r.address = "" ∨ r.port = 0) := by
  constructor
  · unfold LoadRoutingConfig
    by_cases h1 : c.oauth = none
    · simp [h1, panicked]
    · by_cases h2 : c.addresses.length = 0
      · simp [h1, h2, panicked, List.length_eq_zero.mp h2]
      · have h2x : ¬ c.addresses = [] := fun he => h2 (List.length_eq_zero.mpr he)
        by_cases h3 : c.appsDomain = ""
        · simp [h1, h2, h3, panicked]
        · by_cases h4 : c.apiEndpoint = ""
          · simp [h1, h2, h3, h4, panicked]
          · simp [h1, h2, h2x, h3, h4, panicked]
  · unfold LoadRouterApiConfig
    by_cases h1 : r.address = ""
    · simp [h1, panicked]
    · by_cases h2 : r.port = 0
      · simp [h1, h2, panicked]
      · by_cases h3 : r.bbsAddress = "" <;> simp [h1, h2, h3, panicked]

/-- A loader accepts a fully populated configuration and rejects one
with an empty address. -/
theorem loadConfig_panics_iff_witness :
    panicked (LoadRouterApiConfig { address := "", port := 1025, bbsAddress := "" }) = true :=
  (loadConfig_panics_iff
      { oauth := none, addresses := [], includeHttpRoutes := false, tcpAppDomain := ""
        lbConfigured := false, appsDomain := "", apiEndpoint := "" }
      { address := "", port := 1025, bbsAddress := "" }).2.mpr (Or.inl rfl)

/-- Helper: receiveUntil succeeds exactly when the sought line occurs
in the remaining items. -/
theorem receiveUntil_isSome_iff (s : String) (l : List String) :
    (receiveUntil s l).isSome = true ↔ s ∈ l := by
  induction l with
  | nil => simp [receiveUntil]
  | cons x xs ih =>
    by_cases hx : x = s
    · subst hx
      simp [receiveUntil]
    · simp only [receiveUntil, if_neg hx, List.mem_cons, ih]
      constructor
      · exact fun h => Or.inr h
      · rintro (h | h)
        · exact absurd h.symm hx
        · exact h

/-- C4: the statsd oracle of the route-deletion and route-expiry specs
accepts a sequence of received lines exactly when a plus-one gauge line
for total_http_routes occurs strictly before a minus-one gauge line. -/
theorem stats_plus_before_minus (lines : List String) :
    statsDeleteOracle lines = true ↔
      ∃ i j, i < j ∧ lines.get? i = some totalRoutesPlus ∧
        lines.get? j = some totalRoutesMinus := by
  induction lines with
  | nil => simp [statsDeleteOracle, receiveUntil]
  | cons x xs ih =>
    by_cases hx : x = totalRoutesPlus
    · subst hx
      have hor : statsDeleteOracle (totalRoutesPlus :: xs)
          = (receiveUntil totalRoutesMinus xs).isSome := by
        simp [statsDeleteOracle, receiveUntil]
      rw [hor, receiveUntil_isSome_iff]
      constructor
      · intro hmem
        obtain ⟨k, hk⟩ := List.mem_iff_get?.mp hmem
        exact ⟨0, k + 1, Nat.succ_pos k, by simp, by simpa using hk⟩
      · rintro ⟨i, j, hij, _, hj⟩
        cases j with
        | zero => omega
        | succ k =>
          have hk : xs.get? k = some totalRoutesMinus := by simpa using hj
          exact List.mem_iff_get?.mpr ⟨k, hk⟩
    · have hor : statsDeleteOracle (x :: xs) = statsDeleteOracle xs := by
        simp [statsDeleteOracle, receiveUntil, hx]
      rw [hor, ih]
      constructor
      · rintro ⟨i, j, hij, hi, hj⟩
        exact ⟨i + 1, j + 1, by omega, by simpa using hi, by simpa using hj⟩
      · rintro ⟨i, j, hij, hi, hj⟩
        cases i with
        | zero =>
          exfalso
          have : x = totalRoutesPlus := by simpa using hi
          exact hx this
        | succ i0 =>
          cases j with
          | zero => omega
          | succ j0 =>
            exact ⟨i0, j0, by omega, by simpa using hi, by simpa using hj⟩

/-- The oracle accepts a channel trace holding a plus line then a minus
line. -/
theorem stats_plus_before_minus_witness :
    statsDeleteOracle [totalRoutesPlus, totalRoutesMinus] = true :=
  (stats_plus_before_minus [totalRoutesPlus, totalRoutesMinus]).mpr
    ⟨0, 1, Nat.zero_lt_one, rfl, rfl⟩

/-- C5: checkConnection sends the timestamped message and reports a nil
error exactly when dial, write and read succeed, the bytes read back
are the server id, a colon and the sent message, and the close
succeeds; every dial, write, read or mismatch error is reported on the
channel as that error. -/
theorem checkConnection_echo (env : ConnEnv) (sid : String) :
    (checkConnection env sid = none ↔
      env.dialErr = none ∧ env.writeErr = none ∧ env.readErr = none ∧
        env.buff = sid ++ ":" ++ ("Time is " ++ toString env.nano) ∧
        env.closeErr = none) ∧
    (∀ e, env.dialErr = some e → checkConnection env sid = some (ConnErr.dial e)) ∧
    (∀ e, env.dialErr = none → env.writeErr = some e →
      checkConnection env sid = some (ConnErr.write e)) ∧
    (∀ e, env.dialErr = none → env.writeErr = none → env.readErr = some e →
      checkConnection env sid = some (ConnErr.read e)) ∧
    (env.dialErr = none → env.writeErr = none → env.readErr = none →
      env.buff ≠ expectedMessage sid env.nano →
      checkConnection env sid =
        some (ConnErr.mismatch env.buff (expectedMessage sid env.nano))) := by
  refine ⟨?_, ?_, ?_, ?_, ?_⟩
  · cases hd : env.dialErr with
    | some e => simp [checkConnection, hd]
    | none =>
      cases hw : env.writeErr with
      | some e => simp [checkConnection, hd, hw]
      | none =>
        cases hr : env.readErr with
        | some e => simp [checkConnection, hd, hw, hr]
        | none =>
          by_cases hb : env.buff = expectedMessage sid env.nano
          · cases hc : env.closeErr with
            | some e =>
              simp [checkConnection, hd, hw, hr, hb, hc, expectedMessage, connMessage]
            | none =>
              simp [checkConnection, hd, hw, hr, hb, hc, expectedMessage, connMessage]
          · simp only [checkConnection, hd, hw, hr, if_neg hb]
            simp only [expectedMessage, connMessage] at hb
            simp [hb]
  · intro e hd
    simp [checkConnection, hd]
  · intro e hd hw
    simp [checkConnection, hd, hw]
  · intro e hd hw hr
    simp [checkConnection, hd, hw, hr]
  · intro hd hw hr hb
    simp [checkConnection, hd, hw, hr, if_neg hb]

/-- A connection whose read returns the expected echo reports a nil
error. -/
theorem checkConnection_echo_witness :
    checkConnection
      { dialErr := none, nano := 7, writeErr := none, readErr := none
        buff := expectedMessage ("serverId1") 7, closeErr := none } ("serverId1") = none :=
  (checkConnection_echo
      { dialErr := none, nano := 7, writeErr := none, readErr := none
        buff := expectedMessage ("serverId1") 7, closeErr := none } ("serverId1")).1.mpr
    ⟨rfl, rfl, rfl, rfl, rfl⟩

/-- Helper: the echo of the fixed message determines the server id. -/
theorem backendEcho_inj (s1 s2 m : String) :
    backendEcho s1 m = backendEcho s2 m ↔ s1 = s2 := by
  constructor
  · intro h
    unfold backendEcho at h
    have hdata := String.ext_iff.mp h
    rw [String.data_append, String.data_append, String.data_append, String.data_append] at hdata
    have h2 := List.append_cancel_right hdata
    have h3 := List.append_cancel_right h2
    exact String.ext h3
  · intro h
    rw [h]

/-- C6: the load-balancing oracle accepts two consecutive exchanges
exactly when they were served by backends with distinct server ids; the
test fails whenever the two responses are equal. -/
theorem load_balance_distinct (s1 s2 : String) :
    loadBalanceOracle s1 s2 = true ↔ s1 ≠ s2 := by
  unfold loadBalanceOracle sendAndReceive
  rw [bne_iff_ne]
  constructor
  · intro h heq
    exact h (by rw [heq])
  · intro h heq
    exact h ((backendEcho_inj s1 s2 sendMessage).mp heq)

/-- Two distinct server ids satisfy the load-balancing oracle. -/
theorem load_balance_distinct_witness :
    loadBalanceOracle ("serverId3") ("serverId4") = true :=
  (load_balance_distinct ("serverId3") ("serverId4")).mpr (by decide)

/-- Helper: the backend-building loop is the map over backend ports. -/
theorem buildBackends_eq_map (ip : String) (ports : List Nat) :
    buildBackends ip ports = ports.map (fun p => NewBackendHostInfo ip p) := by
  have hgen : ∀ (l : List Nat) (acc : List BackendHostInfo),
      l.foldl (fun a p => a ++ [NewBackendHostInfo ip p]) acc
        = acc ++ l.map (fun p => NewBackendHostInfo ip p) := by
    intro l
    induction l with
    | nil => intro acc; simp
    | cons p rest ih =>
      intro acc
      simp [List.foldl_cons, ih]
  exact (hgen ports []).trans (by simp)

/-- C7: configureMapping builds one MappingRequest holding one backend
host-info per given backend port, posts it to the v0 external ports
url of the router api, and the test passes exactly when marshalling and
transport succeed and the response status is 200. -/
theorem configureMapping_spec (ip : String) (ep : Nat) (ports : List Nat) (env : PostEnv)
    (addr : String) (p : Nat) :
    configureMappingRequests ip ep ports
      = [NewMappingRequest ep (ports.map (fun bp => NewBackendHostInfo ip bp))] ∧
    (NewMappingRequest ep (ports.map (fun bp => NewBackendHostInfo ip bp))).backends.length
      = ports.length ∧
    externalPortsUrl addr p
      = "http://" ++ addr ++ ":" ++ toString p ++ "/v0/external_ports" ∧
    (configureMapping env = TestOutcome.pass ↔
      env.marshalErr = none ∧ env.postErr = none ∧ env.statusCode = 200) := by
  refine ⟨?_, ?_, rfl, ?_⟩
  · unfold configureMappingRequests
    rw [buildBackends_eq_map]
  · simp [NewMappingRequest]
  · cases hm : env.marshalErr with
    | some e => simp [configureMapping, hm]
    | none =>
      cases hp : env.postErr with
      | some e => simp [configureMapping, hm, hp]
      | none =>
        by_cases hs : env.statusCode = 200 <;> simp [configureMapping, hm, hp, hs]

/-- A 200 response with no errors passes the configureMapping
assertions. -/
theorem configureMapping_spec_witness :
    configureMapping { marshalErr := none, postErr := none, statusCode := 200 }
      = TestOutcome.pass :=
  (configureMapping_spec ("10.0.0.1") 60001 [9001]
      { marshalErr := none, postErr := none, statusCode := 200 } ("10.0.0.2") 9999).2.2.2.mpr
    ⟨rfl, rfl, rfl⟩

/-- C10 counterexample: when the clock advances between the two
time.Now() calls of CertTemplate, NotAfter is not exactly one hour
after NotBefore. -/
theorem certTemplate_hour_counterexample :
    ¬ ((CertTemplate 0 0 1).notAfter = (CertTemplate 0 0 1).notBefore + timeHour) := by
  decide

/-- C10 (amended): every certificate template has a serial number below
2 to the 128, NotBefore equal to the first clock sample, and NotAfter
exactly one hour after the second clock sample; since the second sample
is not earlier than the first, NotAfter is at least one hour after
NotBefore, and exactly one hour after it when the two samples
coincide. -/
theorem certTemplate_validity (entropy now1 now2 : Nat) (hmono : now1 ≤ now2) :
    (CertTemplate entropy now1 now2).serialNumber < serialNumberLimit ∧
    (CertTemplate entropy now1 now2).notBefore = now1 ∧
    (CertTemplate entropy now1 now2).notAfter = now2 + timeHour ∧
    (CertTemplate entropy now1 now2).notBefore + timeHour
      ≤ (CertTemplate entropy now1 now2).notAfter ∧
    (now1 = now2 →
      (CertTemplate entropy now1 now2).notAfter
        = (CertTemplate entropy now1 now2).notBefore + timeHour) := by
  refine ⟨?_, rfl, rfl, ?_, ?_⟩
  · exact Nat.mod_lt entropy (by decide)
  · simp only [CertTemplate]
    omega
  · intro h
    simp only [CertTemplate, h]

/-- Helper: the retry loop on a successful attempt. -/
theorem verifyLoop_none_case (res : Nat → Option String) (i : Nat) (h : res i = none) :
    verifyLoop res i = none := by
  rw [verifyLoop, h]

/-- Helper: the retry loop retries a failed attempt below index 10. -/
theorem verifyLoop_some_lt (res : Nat → Option String) (i : Nat) (e : String)
    (h : res i = some e) (hi : i < 10) :
    verifyLoop res i = verifyLoop res (i + 1) := by
  rw [verifyLoop, h]
  exact dif_pos hi

/-- Helper: the retry loop fails the assertion at index 10. -/
theorem verifyLoop_some_ge (res : Nat → Option String) (i : Nat) (e : String)
    (h : res i = some e) (hi : ¬ i < 10) :
    verifyLoop res i = some e := by
  rw [verifyLoop, h]
  exact dif_neg hi

/-- Helper: the attempt counter on a successful attempt. -/
theorem verifyAttempts_none_case (res : Nat → Option String) (i : Nat) (h : res i = none) :
    verifyAttempts res i = 1 := by
  rw [verifyAttempts, h]

/-- Helper: the attempt counter on a retried attempt. -/
theorem verifyAttempts_some_lt (res : Nat → Option String) (i : Nat) (e : String)
    (h : res i = some e) (hi : i < 10) :
    verifyAttempts res i = 1 + verifyAttempts res (i + 1) := by
  rw [verifyAttempts, h]
  exact dif_pos hi

/-- Helper: the attempt counter on the final failed attempt. -/
theorem verifyAttempts_some_ge (res : Nat → Option String) (i : Nat) (e : String)
    (h : res i = some e) (hi : ¬ i < 10) :
    verifyAttempts res i = 1 := by
  rw [verifyAttempts, h]
  exact dif_neg hi

/-- Helper: behaviour of the retry loop from any start index. -/
theorem verifyLoop_cases (res : Nat → Option String) :
    ∀ k i, i + k = 10 →
      ((verifyLoop res i = none ↔ ∃ j, i ≤ j ∧ j ≤ 10 ∧ res j = none) ∧
       (∀ e, verifyLoop res i = some e ↔
          ((∀ j, i ≤ j → j ≤ 10 → res j ≠ none) ∧ res 10 = some e))) := by
  intro k
  induction k with
  | zero =>
    intro i hi
    have h10 : i = 10 := by omega
    subst h10
    cases hres : res 10 with
    | none =>
      rw [verifyLoop_none_case res 10 hres]
      constructor
      · constructor
        · intro _
          exact ⟨10, Nat.le_refl 10, Nat.le_refl 10, hres⟩
        · intro _
          rfl
      · intro e
        constructor
        · intro h
          exact absurd h (by simp)
        · rintro ⟨_, h2⟩
          exact absurd h2 (by simp)
    | some e0 =>
      rw [verifyLoop_some_ge res 10 e0 hres (by omega)]
      constructor
      · constructor
        · intro h
          exact absurd h (by simp)
        · rintro ⟨j, hj1, hj2, hj3⟩
          have hj : j = 10 := by omega
          subst hj
          rw [hres] at hj3
          exact absurd hj3 (by simp)
      · intro e
        constructor
        · intro h
          have he : e0 = e := by simpa using h
          subst he
          refine ⟨fun j hj1 hj2 => ?_, rfl⟩
          have hj : j = 10 := by omega
          subst hj
          simp [hres]
        · rintro ⟨_, h2⟩
          exact h2
  | succ k ih =>
    intro i hi
    have hilt : i < 10 := by omega
    cases hres : res i with
    | none =>
      rw [verifyLoop_none_case res i hres]
      constructor
      · constructor
        · intro _
          exact ⟨i, Nat.le_refl i, by omega, hres⟩
        · intro _
          rfl
      · intro e
        constructor
        · intro h
          exact absurd h (by simp)
        · rintro ⟨hall, _⟩
          exact absurd hres (hall i (Nat.le_refl i) (by omega))
    | some e0 =>
      rw [verifyLoop_some_lt res i e0 hres hilt]
      obtain ⟨ih1, ih2⟩ := ih (i + 1) (by omega)
      constructor
      · rw [ih1]
        constructor
        · rintro ⟨j, hj1, hj2, hj3⟩
          exact ⟨j, by omega, hj2, hj3⟩
        · rintro ⟨j, hj1, hj2, hj3⟩
          refine ⟨j, ?_, hj2, hj3⟩
          rcases Nat.eq_or_lt_of_le hj1 with heq | hlt
          · exfalso
            rw [← heq, hres] at hj3
            exact absurd hj3 (by simp)
          · omega
      · intro e
        rw [ih2 e]
        constructor
        · rintro ⟨hall, h10⟩
          refine ⟨fun j hj1 hj2 => ?_, h10⟩
          rcases Nat.eq_or_lt_of_le hj1 with heq | hlt
          · rw [← heq, hres]
            simp
          · exact hall j (by omega) hj2
        · rintro ⟨hall, h10⟩
          exact ⟨fun j hj1 hj2 => hall j (by omega) hj2, h10⟩

/-- Helper: the attempt counter is bounded from any start index. -/
theorem verifyAttempts_bound (res : Nat → Option String) :
    ∀ k i, i + k = 10 → verifyAttempts res i ≤ k + 1 := by
  intro k
  induction k with
  | zero =>
    intro i hi
    have h10 : i = 10 := by omega
    subst h10
    cases hres : res 10 with
    | none =>
      rw [verifyAttempts_none_case res 10 hres]
    | some e0 =>
      rw [verifyAttempts_some_ge res 10 e0 hres (by omega)]
  | succ k ih =>
    intro i hi
    cases hres : res i with
    | none =>
      rw [verifyAttempts_none_case res i hres]
      omega
    | some e0 =>
      rw [verifyAttempts_some_lt res i e0 hres (by omega)]
      have := ih (i + 1) (by omega)
      omega

/-- C3: the connection-verification loop is bounded: at most 11
checkConnection attempts are made (one initial plus at most 10
retries); the loop succeeds exactly when some attempt among the first
11 reports a nil error, and fails the test assertion exactly when all
11 attempts report errors, reporting the error of the 11th. -/
theorem verifyConnection_bounded (res : Nat → Option String) :
    verifyConnectionAttempts res ≤ 11 ∧
    (verifyConnection res = none ↔ ∃ j, j ≤ 10 ∧ res j = none) ∧
    (∀ e, verifyConnection res = some e ↔
      ((∀ j, j ≤ 10 → res j ≠ none) ∧ res 10 = some e)) := by
  obtain ⟨h1, h2⟩ := verifyLoop_cases res 10 0 rfl
  refine ⟨verifyAttempts_bound res 10 0 rfl, ?_, ?_⟩
  · unfold verifyConnection
    rw [h1]
    constructor
    · rintro ⟨j, _, hj2, hj3⟩
      exact ⟨j, hj2, hj3⟩
    · rintro ⟨j, hj2, hj3⟩
      exact ⟨j, Nat.zero_le j, hj2, hj3⟩
  · intro e
    unfold verifyConnection
    rw [h2 e]
    constructor
    · rintro ⟨hall, h10⟩
      exact ⟨fun j hj => hall j (Nat.zero_le j) hj, h10⟩
    · rintro ⟨hall, h10⟩
      exact ⟨fun j _ hj => hall j hj, h10⟩

/-- A first successful attempt ends the loop with no assertion
failure. -/
theorem verifyConnection_bounded_witness :
    verifyConnection (fun _ => none) = none :=
  ((verifyConnection_bounded (fun _ => none)).2.1).mpr ⟨0, Nat.zero_le 10, rfl⟩

/-- Helper: the ReadRoutes node loop never produces an error. -/
theorem readRoutesLoop_ok (u : String → Option Route) :
    ∀ vals acc, ∃ l, readRoutesLoop u vals acc = Except.ok l := by
  intro vals
  induction vals with
  | nil => intro acc; exact ⟨acc, rfl⟩
  | cons v rest ih =>
    intro acc
    cases hu : u v with
    | none => exact ⟨[], by simp [readRoutesLoop, hu]⟩
    | some r =>
      obtain ⟨l, hl⟩ := ih (acc ++ [r])
      exact ⟨l, by simp [readRoutesLoop, hu, hl]⟩

/-- Helper: an unmarshal failure anywhere empties the ReadRoutes
result. -/
theorem readRoutesLoop_fail (u : String → Option Route) :
    ∀ vals acc, (∃ v ∈ vals, u v = none) → readRoutesLoop u vals acc = Except.ok [] := by
  intro vals
  induction vals with
  | nil =>
    intro acc h
    simp at h
  | cons v rest ih =>
    intro acc h
    cases hu : u v with
    | none => simp [readRoutesLoop, hu]
    | some r =>
      obtain ⟨w, hw, hwu⟩ := h
      rcases List.mem_cons.mp hw with heq | hmem
      · subst heq
        rw [hu] at hwu
        exact absurd hwu (by simp)
      · simp only [readRoutesLoop, hu]
        exact ih (acc ++ [r]) ⟨w, hmem, hwu⟩

/-- Helper: an unmarshal failure aborts the innermost TCP loop. -/
theorem readTcpMappingNodes_fail (u : String → Option TcpRouteMapping) :
    ∀ vals acc, (∃ v ∈ vals, u v = none) → readTcpMappingNodes u vals acc = none := by
  intro vals
  induction vals with
  | nil =>
    intro acc h
    simp at h
  | cons v rest ih =>
    intro acc h
    cases hu : u v with
    | none => simp [readTcpMappingNodes, hu]
    | some m =>
      obtain ⟨w, hw, hwu⟩ := h
      rcases List.mem_cons.mp hw with heq | hmem
      · subst heq
        rw [hu] at hwu
        exact absurd hwu (by simp)
      · simp only [readTcpMappingNodes, hu]
        exact ih (acc ++ [m]) ⟨w, hmem, hwu⟩

/-- Helper: an unmarshal failure aborts the middle TCP loop. -/
theorem readTcpPortNodes_fail (u : String → Option TcpRouteMapping) :
    ∀ gs acc, (∃ g ∈ gs, ∃ v ∈ g, u v = none) → readTcpPortNodes u gs acc = none := by
  intro gs
  induction gs with
  | nil =>
    intro acc h
    simp at h
  | cons g rest ih =>
    intro acc h
    cases h3 : readTcpMappingNodes u g acc with
    | none => simp [readTcpPortNodes, h3]
    | some acc2 =>
      simp only [readTcpPortNodes, h3]
      obtain ⟨g0, hg0, hv⟩ := h
      rcases List.mem_cons.mp hg0 with heq | hmem
      · exfalso
        subst heq
        rw [readTcpMappingNodes_fail u g0 acc hv] at h3
        exact absurd h3 (by simp)
      · exact ih acc2 ⟨g0, hmem, hv⟩

/-- Helper: an unmarshal failure aborts the outer TCP loop. -/
theorem readTcpGroupNodes_fail (u : String → Option TcpRouteMapping) :
    ∀ gs acc, (∃ g ∈ gs, ∃ pn ∈ g, ∃ v ∈ pn, u v = none) →
      readTcpGroupNodes u gs acc = none := by
  intro gs
  induction gs with
  | nil =>
    intro acc h
    simp at h
  | cons g rest ih =>
    intro acc h
    cases h2 : readTcpPortNodes u g acc with
    | none => simp [readTcpGroupNodes, h2]
    | some acc2 =>
      simp only [readTcpGroupNodes, h2]
      obtain ⟨g0, hg0, hv⟩ := h
      rcases List.mem_cons.mp hg0 with heq | hmem
      · exfalso
        subst heq
        rw [readTcpPortNodes_fail u g0 acc hv] at h2
        exact absurd h2 (by simp)
      · exact ih acc2 ⟨g0, hmem, hv⟩

/-- C8: ReadRoutes and ReadTcpRouteMappings never return a non-nil
error: every Get failure, and every unmarshal failure of a stored
value, yields the empty list together with a nil error. -/
theorem read_operations_swallow_errors (u : String → Option Route)
    (g : Except EtcdError (List String)) (u2 : String → Option TcpRouteMapping)
    (g2 : Except EtcdError (List (List (List String)))) :
    (∃ l, ReadRoutes u g = Except.ok l) ∧
    (∀ e, g = Except.error e → ReadRoutes u g = Except.ok []) ∧
    (∀ vals, g = Except.ok vals → (∃ v ∈ vals, u v = none) →
      ReadRoutes u g = Except.ok []) ∧
    (∃ l, ReadTcpRouteMappings u2 g2 = Except.ok l) ∧
    (∀ e, g2 = Except.error e → ReadTcpRouteMappings u2 g2 = Except.ok []) ∧
    (∀ tree, g2 = Except.ok tree → (∃ grp ∈ tree, ∃ pn ∈ grp, ∃ v ∈ pn, u2 v = none) →
      ReadTcpRouteMappings u2 g2 = Except.ok []) := by
  refine ⟨?_, ?_, ?_, ?_, ?_, ?_⟩
  · cases g with
    | error e => exact ⟨[], rfl⟩
    | ok vals => exact readRoutesLoop_ok u vals []
  · intro e he
    subst he
    rfl
  · intro vals hv hex
    subst hv
    exact readRoutesLoop_fail u vals [] hex
  · cases g2 with
    | error e => exact ⟨[], rfl⟩
    | ok tree =>
      cases hres : readTcpGroupNodes u2 tree [] with
      | none => exact ⟨[], by simp [ReadTcpRouteMappings, hres]⟩
      | some l => exact ⟨l, by simp [ReadTcpRouteMappings, hres]⟩
  · intro e he
    subst he
    rfl
  · intro tree ht hex
    subst ht
    simp [ReadTcpRouteMappings, readTcpGroupNodes_fail u2 tree [] hex]

/-- A blob that fails to unmarshal makes ReadRoutes return the empty
list with a nil error. -/
theorem read_operations_swallow_errors_witness :
    ReadRoutes (fun _ => none) (Except.ok [("blob")]) = Except.ok [] :=
  (read_operations_swallow_errors (fun _ => none) (Except.ok [("blob")])
      (fun _ => none) (Except.ok [])).2.2.1 [("blob")] rfl ⟨("blob"), by simp, rfl⟩

/-- Helper: in a store with pairwise distinct guids, two members with
the same guid are the same group. -/
theorem guid_unique_mem {store : List RouterGroup}
    (huniq : store.Pairwise (fun a b => a.guid ≠ b.guid))
    {g1 g2 : RouterGroup} (h1 : g1 ∈ store) (h2 : g2 ∈ store)
    (h : g1.guid = g2.guid) : g1 = g2 := by
  by_contra hne
  have hsym : Symmetric (fun a b : RouterGroup => a.guid ≠ b.guid) :=
    fun a b hab heq => hab heq.symm
  exact List.Pairwise.forall hsym huniq h1 h2 hne h

/-- Helper: the ReadRouterGroups loop succeeds when every stored blob
unmarshals, returning the accumulator followed by the stored groups. -/
theorem readRouterGroupsLoop_ok (unmarshalOk : RouterGroup → Bool) :
    ∀ gs acc, (∀ g ∈ gs, unmarshalOk g = true) →
      readRouterGroupsLoop unmarshalOk gs acc = Except.ok (acc ++ gs) := by
  intro gs
  induction gs with
  | nil =>
    intro acc _
    simp [readRouterGroupsLoop]
  | cons g rest ih =>
    intro acc h
    have hg : unmarshalOk g = true := h g (List.mem_cons_self g rest)
    have hrest : ∀ x ∈ rest, unmarshalOk x = true :=
      fun x hx => h x (List.mem_cons_of_mem g hx)
    simp only [readRouterGroupsLoop, hg, if_true]
    rw [ih (acc ++ [g]) hrest]
    simp

/-- Helper: with no injected failure and well-formed blobs,
ReadRouterGroups returns the stored groups. -/
theorem ReadRouterGroups_ok (store : List RouterGroup) (env : RouterGroupEnv)
    (hread : env.readGroupsErr = none)
    (hunm : ∀ g ∈ store, env.unmarshalGroupOk g = true) :
    ReadRouterGroups store env = Except.ok store := by
  have hdef : ReadRouterGroups store env = readRouterGroupsLoop env.unmarshalGroupOk store [] := by
    unfold ReadRouterGroups
    rw [hread]
  rw [hdef, readRouterGroupsLoop_ok env.unmarshalGroupOk store [] hunm]
  simp

/-- Helper: a failure of the base-key Get other than key-not-found is
propagated by ReadRouterGroups. -/
theorem ReadRouterGroups_err (store : List RouterGroup) (env : RouterGroupEnv) (e : EtcdError)
    (hread : env.readGroupsErr = some e)
    (hnk : isClientErrorWithCode (some e) ErrorCodeKeyNotFound = false) :
    ReadRouterGroups store env = Except.error e := by
  have hdef : ReadRouterGroups store env
      = (if isClientErrorWithCode (some e) ErrorCodeKeyNotFound then Except.ok []
         else Except.error e) := by
    unfold ReadRouterGroups
    rw [hread]
  rw [hdef, hnk]
  simp

/-- Helper: the own-key Get finds the stored group with the same
guid. -/
theorem getRouterGroupKey_found (store : List RouterGroup) (env : RouterGroupEnv)
    (rg current : RouterGroup) (hget : env.getOwnErr = none)
    (hf : store.find? (fun g => g.guid == rg.guid) = some current) :
    getRouterGroupKey store env rg = Except.ok current := by
  unfold getRouterGroupKey
  rw [hget, hf]

/-- Helper: the own-key Get fails with key-not-found when no group has
the guid. -/
theorem getRouterGroupKey_absent (store : List RouterGroup) (env : RouterGroupEnv)
    (rg : RouterGroup) (hget : env.getOwnErr = none)
    (hf : store.find? (fun g => g.guid == rg.guid) = none) :
    getRouterGroupKey store env rg
      = Except.error (EtcdError.clientError ErrorCodeKeyNotFound) := by
  unfold getRouterGroupKey
  rw [hget, hf]

/-- Helper: an injected failure of the own-key Get. -/
theorem getRouterGroupKey_err (store : List RouterGroup) (env : RouterGroupEnv)
    (rg : RouterGroup) (e : EtcdError) (hget : env.getOwnErr = some e) :
    getRouterGroupKey store env rg = Except.error e := by
  unfold getRouterGroupKey
  rw [hget]

/-- Helper: a successful Set writes the group. -/
theorem writeRouterGroup_ok (store : List RouterGroup) (env : RouterGroupEnv)
    (rg : RouterGroup) (hset : env.setErr = none) :
    writeRouterGroup store env rg = (etcdSet store rg, none) := by
  unfold writeRouterGroup
  rw [hset]

/-- Helper: a failed Set leaves the store and returns the error. -/
theorem writeRouterGroup_err (store : List RouterGroup) (env : RouterGroupEnv)
    (rg : RouterGroup) (e : EtcdError) (hset : env.setErr = some e) :
    writeRouterGroup store env rg = (store, some (SaveRouterGroupError.etcdError e)) := by
  unfold writeRouterGroup
  rw [hset]

/-- Helper: with a nonempty guid and a successful read, SaveRouterGroup
proceeds to its checks over the groups read. -/
theorem SaveRouterGroup_eq (store : List RouterGroup) (env : RouterGroupEnv)
    (rg : RouterGroup) (h1 : ¬ rg.guid = "") (routerGroups : List RouterGroup)
    (hrgs : ReadRouterGroups store env = Except.ok routerGroups) :
    SaveRouterGroup store env rg = saveRouterGroupChecks store env rg routerGroups := by
  unfold SaveRouterGroup
  rw [if_neg h1, hrgs]
  rfl

/-- Helper: with a nonempty guid, a failed read of the stored groups is
returned unchanged without a write. -/
theorem SaveRouterGroup_readErr (store : List RouterGroup) (env : RouterGroupEnv)
    (rg : RouterGroup) (e : EtcdError) (h1 : ¬ rg.guid = "")
    (hrgs : ReadRouterGroups store env = Except.error e) :
    SaveRouterGroup store env rg = (store, some (SaveRouterGroupError.etcdError e)) := by
  unfold SaveRouterGroup
  rw [if_neg h1, hrgs]
  rfl

/-- C9 counterexample: the source checks the stored name only when the
Get of the group's own key succeeds.  Over a store holding the group
guid-one named name-one, saving guid-one with name name-two while that
Get fails transiently returns a nil error and stores the renamed
group, although the write changes the name of an existing group with
the same guid. -/
theorem saveRouterGroup_rename_counterexample :
    (∃ g ∈ rgStoreW, g.guid = rgRenameW.guid ∧ g.name ≠ rgRenameW.name) ∧
    (SaveRouterGroup rgStoreW rgEnvGetFail rgRenameW).2 = none ∧
    (SaveRouterGroup rgStoreW rgEnvGetFail rgRenameW).1 ≠ rgStoreW := by
  decide

/-- C9 (amended): over a store with pairwise-distinct guids, when the
etcd reads of a SaveRouterGroup call succeed -- the read of the stored
groups, whose blobs all unmarshal, and the Get of the group's own
key -- and the final Set succeeds, the call returns an error, leaving
the store unchanged, exactly when the guid is empty, when some other
stored group with a different guid has the same name (UniqueField), or
when the write would change the name of the stored group with the same
guid (NonUpdatableField), and only otherwise is the group written;
when the Get of the group's own key fails, the rename check is skipped
and the group is written regardless, and a failed read of the stored
groups or a failed Set returns that error unchanged without the
write. -/
theorem saveRouterGroup_invariants (store : List RouterGroup) (rg : RouterGroup)
    (env : RouterGroupEnv)
    (huniq : store.Pairwise (fun a b => a.guid ≠ b.guid))
    (hread : env.readGroupsErr = none)
    (hunm : ∀ g ∈ store, env.unmarshalGroupOk g = true)
    (hget : env.getOwnErr = none)
    (hset : env.setErr = none) :
    ((SaveRouterGroup store env rg).2 ≠ none ↔
        rg.guid = "" ∨
        (∃ g ∈ store, g.guid ≠ rg.guid ∧ g.name = rg.name) ∨
        (∃ g ∈ store, g.guid = rg.guid ∧ g.name ≠ rg.name)) ∧
    ((SaveRouterGroup store env rg).2 ≠ none → (SaveRouterGroup store env rg).1 = store) ∧
    ((SaveRouterGroup store env rg).2 = none →
      (SaveRouterGroup store env rg).1 = etcdSet store rg) ∧
    (∀ e, rg.guid ≠ "" → ¬ (∃ g ∈ store, g.guid ≠ rg.guid ∧ g.name = rg.name) →
      SaveRouterGroup store { env with getOwnErr := some e } rg
        = (etcdSet store rg, none)) ∧
    (∀ e, rg.guid ≠ "" → isClientErrorWithCode (some e) ErrorCodeKeyNotFound = false →
      SaveRouterGroup store { env with readGroupsErr := some e } rg
        = (store, some (SaveRouterGroupError.etcdError e))) ∧
    (∀ e, rg.guid ≠ "" → ¬ (∃ g ∈ store, g.guid ≠ rg.guid ∧ g.name = rg.name) →
      ¬ (∃ g ∈ store, g.guid = rg.guid ∧ g.name ≠ rg.name) →
      SaveRouterGroup store { env with setErr := some e } rg
        = (store, some (SaveRouterGroupError.etcdError e))) := by
  have hrgs : ReadRouterGroups store env = Except.ok store :=
    ReadRouterGroups_ok store env hread hunm
  have hchar : SaveRouterGroup store env rg =
      if rg.guid = "" then (store, some SaveRouterGroupError.missingGuid)
      else if ∃ g ∈ store, g.guid ≠ rg.guid ∧ g.name = rg.name then
        (store, some (SaveRouterGroupError.uniqueField rg.name))
      else if ∃ g ∈ store, g.guid = rg.guid ∧ g.name ≠ rg.name then
        (store, some SaveRouterGroupError.nonUpdatableField)
      else (etcdSet store rg, none) := by
    by_cases h1 : rg.guid = ""
    · unfold SaveRouterGroup
      rw [if_pos h1, if_pos h1]
    · rw [if_neg h1, SaveRouterGroup_eq store env rg h1 store hrgs]
      unfold saveRouterGroupChecks
      by_cases h2 : ∃ g ∈ store, g.guid ≠ rg.guid ∧ g.name = rg.name
      · rw [if_pos h2, if_pos h2]
      · rw [if_neg h2, if_neg h2]
        cases hf : store.find? (fun g => g.guid == rg.guid) with
        | some current =>
          have hcmem : current ∈ store := List.mem_of_find?_eq_some hf
          have hcguid : current.guid = rg.guid := by
            have := List.find?_some hf
            simpa using this
          have hunmc : env.unmarshalGroupOk current = true := hunm current hcmem
          rw [getRouterGroupKey_found store env rg current hget hf]
          by_cases h3 : rg.name = current.name
          · have hC : ¬ ∃ g ∈ store, g.guid = rg.guid ∧ g.name ≠ rg.name := by
              rintro ⟨g, hmem, hguid, hname⟩
              have heqg : g = current :=
                guid_unique_mem huniq hmem hcmem (by rw [hguid, hcguid])
              rw [heqg] at hname
              exact hname h3.symm
            rw [if_neg hC]
            simp only [saveRouterGroupUpdateCheck]
            rw [if_pos hunmc, if_neg (fun hne => hne h3)]
            exact writeRouterGroup_ok store env rg hset
          · have hC : ∃ g ∈ store, g.guid = rg.guid ∧ g.name ≠ rg.name :=
              ⟨current, hcmem, hcguid, fun he => h3 he.symm⟩
            rw [if_pos hC]
            simp only [saveRouterGroupUpdateCheck]
            rw [if_pos hunmc, if_pos h3]
        | none =>
          have hC : ¬ ∃ g ∈ store, g.guid = rg.guid ∧ g.name ≠ rg.name := by
            rintro ⟨g, hmem, hguid, _⟩
            have := List.find?_eq_none.mp hf g hmem
            simp [hguid] at this
          rw [if_neg hC, getRouterGroupKey_absent store env rg hget hf]
          simp only [saveRouterGroupUpdateCheck]
          exact writeRouterGroup_ok store env rg hset
  refine ⟨?_, ?_, ?_, ?_, ?_, ?_⟩
  · rw [hchar]
    by_cases h1 : rg.guid = ""
    · simp [h1]
    · by_cases h2 : ∃ g ∈ store, g.guid ≠ rg.guid ∧ g.name = rg.name
      · simp [h1, h2]
      · by_cases h3 : ∃ g ∈ store, g.guid = rg.guid ∧ g.name ≠ rg.name
        · simp [h1, h2, h3]
        · simp [h1, h2, h3]
  · rw [hchar]
    by_cases h1 : rg.guid = ""
    · simp [h1]
    · by_cases h2 : ∃ g ∈ store, g.guid ≠ rg.guid ∧ g.name = rg.name
      · simp [h1, h2]
      · by_cases h3 : ∃ g ∈ store, g.guid = rg.guid ∧ g.name ≠ rg.name
        · simp [h1, h2, h3]
        · simp [h1, h2, h3]
  · rw [hchar]
    by_cases h1 : rg.guid = ""
    · simp [h1]
    · by_cases h2 : ∃ g ∈ store, g.guid ≠ rg.guid ∧ g.name = rg.name
      · simp [h1, h2]
      · by_cases h3 : ∃ g ∈ store, g.guid = rg.guid ∧ g.name ≠ rg.name
        · simp [h1, h2, h3]
        · simp [h1, h2, h3]
  · intro e h1 h2
    have hrgs2 : ReadRouterGroups store { env with getOwnErr := some e } = Except.ok store :=
      ReadRouterGroups_ok store _ hread hunm
    rw [SaveRouterGroup_eq store { env with getOwnErr := some e } rg h1 store hrgs2]
    unfold saveRouterGroupChecks
    rw [if_neg h2, getRouterGroupKey_err store { env with getOwnErr := some e } rg e rfl]
    simp only [saveRouterGroupUpdateCheck]
    exact writeRouterGroup_ok store { env with getOwnErr := some e } rg hset
  · intro e h1 hnk
    exact SaveRouterGroup_readErr store _ rg e h1 (ReadRouterGroups_err store _ e rfl hnk)
  · intro e h1 h2 h3
    have hrgs2 : ReadRouterGroups store { env with setErr := some e } = Except.ok store :=
      ReadRouterGroups_ok store _ hread hunm
    rw [SaveRouterGroup_eq store { env with setErr := some e } rg h1 store hrgs2]
    unfold saveRouterGroupChecks
    rw [if_neg h2]
    cases hf : store.find? (fun g => g.guid == rg.guid) with
    | some current =>
      have hcmem : current ∈ store := List.mem_of_find?_eq_some hf
      have hcguid : current.guid = rg.guid := by
        have := List.find?_some hf
        simpa using this
      have hunmc : env.unmarshalGroupOk current = true := hunm current hcmem
      have h3eq : rg.name = current.name := by
        by_contra hne
        exact h3 ⟨current, hcmem, hcguid, fun he => hne he.symm⟩
      rw [getRouterGroupKey_found store { env with setErr := some e } rg current hget hf]
      simp only [saveRouterGroupUpdateCheck]
      simp only [hunmc, if_true]
      rw [if_neg (fun hne => hne h3eq)]
      exact writeRouterGroup_err store { env with setErr := some e } rg e rfl
    | none =>
      rw [getRouterGroupKey_absent store { env with setErr := some e } rg hget hf]
      simp only [saveRouterGroupUpdateCheck]
      exact writeRouterGroup_err store { env with setErr := some e } rg e rfl

/-- Under an environment with no injected failures, writing a group
whose name is already taken under a different guid is rejected. -/
theorem saveRouterGroup_invariants_witness :
    (SaveRouterGroup rgStoreW rgEnvClean rgW).2 ≠ none :=
  (saveRouterGroup_invariants rgStoreW rgW rgEnvClean (by simp [rgStoreW]) rfl
      (fun g _ => rfl) rfl rfl).1.mpr
    (Or.inr (Or.inl ⟨{ guid := "guid-one", name := "name-one" }, by simp [rgStoreW],
      by decide, rfl⟩))

/-- Helper: the type assertion test characterised as an equality. -/
theorem isClientErrorWithCode_eq (e : Option EtcdError) (c : Nat) :
    isClientErrorWithCode e c = true ↔ e = some (EtcdError.clientError c) := by
  cases e with
  | none => simp [isClientErrorWithCode]
  | some err => cases err <;> simp [isClientErrorWithCode]

/-- Helper: after r retries whose steps all asked to continue, the loop
stands at iteration r with the matching remaining fuel. -/
theorem retryLoop_reach (step : SaveIterEnv → Nat → Option SaveOutcome)
    (env : Nat → SaveIterEnv) :
    ∀ r, (∀ j, j < r → step (env j) j = none) → r ≤ maxRetries + 1 →
      retryLoop step env 0 (maxRetries + 1) = retryLoop step env r (maxRetries + 1 - r) := by
  intro r
  induction r with
  | zero =>
    intro _ _
    rfl
  | succ n ih =>
    intro h hle
    have hstep : step (env n) n = none := h n (Nat.lt_succ_self n)
    have h1 : retryLoop step env 0 (maxRetries + 1)
        = retryLoop step env n (maxRetries + 1 - n) :=
      ih (fun j hj => h j (by omega)) (by omega)
    have hfuel : maxRetries + 1 - n = (maxRetries + 1 - (n + 1)) + 1 := by omega
    rw [h1, hfuel]
    simp [retryLoop, hstep]

/-- Helper: when every allowed iteration asks to continue, the loop
exhausts its budget and returns the conflict sentinel. -/
theorem retryLoop_exhaust (step : SaveIterEnv → Nat → Option SaveOutcome)
    (env : Nat → SaveIterEnv)
    (h : ∀ j, j < maxRetries + 1 → step (env j) j = none) :
    retryLoop step env 0 (maxRetries + 1) = SaveOutcome.conflict := by
  rw [retryLoop_reach step env (maxRetries + 1) h (Nat.le_refl _), Nat.sub_self]
  rfl

/-- Helper: the first iteration that returns an outcome determines the
result of the loop. -/
theorem retryLoop_stop (step : SaveIterEnv → Nat → Option SaveOutcome)
    (env : Nat → SaveIterEnv) (r : Nat) (o : SaveOutcome)
    (hprev : ∀ j, j < r → step (env j) j = none) (hr : r ≤ maxRetries)
    (hs : step (env r) r = some o) :
    retryLoop step env 0 (maxRetries + 1) = o := by
  rw [retryLoop_reach step env r hprev (by omega)]
  have hfuel : maxRetries + 1 - r = (maxRetries - r) + 1 := by omega
  rw [hfuel]
  simp [retryLoop, hs]

/-- Helper: the loop performs at most fuel iterations. -/
theorem retryAttempts_le (step : SaveIterEnv → Nat → Option SaveOutcome)
    (env : Nat → SaveIterEnv) :
    ∀ fuel retries, retryAttempts step env retries fuel ≤ fuel := by
  intro fuel
  induction fuel with
  | zero =>
    intro r
    exact Nat.le_refl 0
  | succ f ih =>
    intro r
    cases hs : step (env r) r with
    | some o =>
      simp only [retryAttempts, hs]
      omega
    | none =>
      have := ih (r + 1)
      simp only [retryAttempts, hs]
      omega

/-- Helper: a SaveRoute iteration asks for a retry only when the error
falling through its branches is the compare-and-swap failure. -/
theorem saveRouteStep_retry_only_on_cas (it : SaveIterEnv) (r : Nat)
    (h : saveRouteStep it r = none) :
    ∃ e, saveRouteBranch it r = Sum.inr e ∧
      isClientErrorWithCode e ErrorCodeTestFailed = true := by
  unfold saveRouteStep at h
  cases hb : saveRouteBranch it r with
  | inl out => simp [hb] at h
  | inr e =>
    simp only [hb] at h
    by_cases htf : isClientErrorWithCode e ErrorCodeTestFailed = true
    · exact ⟨e, rfl, htf⟩
    · rw [if_neg htf] at h
      cases e with
      | none => exact absurd h (by simp)
      | some err => exact absurd h (by simp)

/-- Helper: likewise for a SaveTcpRouteMapping iteration. -/
theorem saveTcpStep_retry_only_on_cas (it : SaveIterEnv) (r : Nat)
    (h : saveTcpStep it r = none) :
    ∃ e, saveTcpBranch it r = Sum.inr (some e) ∧
      isClientErrorWithCode (some e) ErrorCodeTestFailed = true := by
  unfold saveTcpStep at h
  cases hb : saveTcpBranch it r with
  | inl out => simp [hb] at h
  | inr e =>
    cases e with
    | none => simp [hb] at h
    | some err =>
      simp only [hb] at h
      by_cases htf : isClientErrorWithCode (some err) ErrorCodeTestFailed = true
      · exact ⟨err, rfl, htf⟩
      · rw [if_neg htf] at h
        exact absurd h (by simp)

/-- Helper: on a retry, a key-not-found Get makes the SaveRoute
iteration return the conflict sentinel. -/
theorem saveRouteStep_keyNotFound (it : SaveIterEnv) (r : Nat) (hr : 0 < r)
    (hk : isClientErrorWithCode it.getErr ErrorCodeKeyNotFound = true) :
    saveRouteStep it r = some SaveOutcome.conflict := by
  have hk2 : it.getErr = some (EtcdError.clientError ErrorCodeKeyNotFound) :=
    (isClientErrorWithCode_eq _ _).mp hk
  simp [saveRouteStep, saveRouteBranch, hk2, isClientErrorWithCode, hr]

/-- Helper: likewise for a SaveTcpRouteMapping iteration. -/
theorem saveTcpStep_keyNotFound (it : SaveIterEnv) (r : Nat) (hr : 0 < r)
    (hk : isClientErrorWithCode it.getErr ErrorCodeKeyNotFound = true) :
    saveTcpStep it r = some SaveOutcome.conflict := by
  have hk2 : it.getErr = some (EtcdError.clientError ErrorCodeKeyNotFound) :=
    (isClientErrorWithCode_eq _ _).mp hk
  simp [saveTcpStep, saveTcpBranch, hk2, isClientErrorWithCode, hr]

/-- C1: both save operations retry the compare-and-swap write only on
an etcd compare-and-swap failure, at most maxRetries additional times
after the initial attempt; exhausting the retry budget returns
ErrorConflict, a key that disappears between a read and an update on
any retry after the first attempt returns ErrorConflict, and any other
etcd error is returned unchanged. -/
theorem saveRoute_retry_policy (env : Nat → SaveIterEnv) :
    retryAttempts saveRouteStep env 0 (maxRetries + 1) ≤ maxRetries + 1 ∧
    retryAttempts saveTcpStep env 0 (maxRetries + 1) ≤ maxRetries + 1 ∧
    (∀ it r, saveRouteStep it r = none →
      ∃ e, saveRouteBranch it r = Sum.inr e ∧
        isClientErrorWithCode e ErrorCodeTestFailed = true) ∧
    (∀ it r, saveTcpStep it r = none →
      ∃ e, saveTcpBranch it r = Sum.inr (some e) ∧
        isClientErrorWithCode (some e) ErrorCodeTestFailed = true) ∧
    ((∀ j, j ≤ maxRetries → saveRouteStep (env j) j = none) →
      SaveRoute env = SaveOutcome.conflict) ∧
    ((∀ j, j ≤ maxRetries → saveTcpStep (env j) j = none) →
      SaveTcpRouteMapping env = SaveOutcome.conflict) ∧
    (∀ r, 0 < r → r ≤ maxRetries → (∀ j, j < r → saveRouteStep (env j) j = none) →
      isClientErrorWithCode (env r).getErr ErrorCodeKeyNotFound = true →
      SaveRoute env = SaveOutcome.conflict) ∧
    (∀ r, 0 < r → r ≤ maxRetries → (∀ j, j < r → saveTcpStep (env j) j = none) →
      isClientErrorWithCode (env r).getErr ErrorCodeKeyNotFound = true →
      SaveTcpRouteMapping env = SaveOutcome.conflict) ∧
    (∀ r e, r ≤ maxRetries → (∀ j, j < r → saveRouteStep (env j) j = none) →
      saveRouteStep (env r) r = some (SaveOutcome.errorOut e) →
      SaveRoute env = SaveOutcome.errorOut e) ∧
    (∀ r e, r ≤ maxRetries → (∀ j, j < r → saveTcpStep (env j) j = none) →
      saveTcpStep (env r) r = some (SaveOutcome.errorOut e) →
      SaveTcpRouteMapping env = SaveOutcome.errorOut e) := by
  refine ⟨retryAttempts_le saveRouteStep env (maxRetries + 1) 0,
    retryAttempts_le saveTcpStep env (maxRetries + 1) 0,
    fun it r h => saveRouteStep_retry_only_on_cas it r h,
    fun it r h => saveTcpStep_retry_only_on_cas it r h, ?_, ?_, ?_, ?_, ?_, ?_⟩
  · intro h
    exact retryLoop_exhaust saveRouteStep env (fun j hj => h j (by omega))
  · intro h
    exact retryLoop_exhaust saveTcpStep env (fun j hj => h j (by omega))
  · intro r hr0 hrm hprev hk
    exact retryLoop_stop saveRouteStep env r _ hprev hrm
      (saveRouteStep_keyNotFound (env r) r hr0 hk)
  · intro r hr0 hrm hprev hk
    exact retryLoop_stop saveTcpStep env r _ hprev hrm
      (saveTcpStep_keyNotFound (env r) r hr0 hk)
  · intro r e hrm hprev hs
    exact retryLoop_stop saveRouteStep env r _ hprev hrm hs
  · intro r e hrm hprev hs
    exact retryLoop_stop saveTcpStep env r _ hprev hrm hs

/-- When every attempt fails the compare-and-swap, both save operations
give up with ErrorConflict. -/
theorem saveRoute_retry_policy_witness :
    SaveRoute (fun _ => envAllTestFailed) = SaveOutcome.conflict ∧
    SaveTcpRouteMapping (fun _ => envAllTestFailed) = SaveOutcome.conflict := by
  constructor
  · exact (saveRoute_retry_policy (fun _ => envAllTestFailed)).2.2.2.2.1
      (fun j hj => by rfl)
  · exact (saveRoute_retry_policy (fun _ => envAllTestFailed)).2.2.2.2.2.1
      (fun j hj => by rfl)

/-- A template built from coinciding clock samples is valid for exactly
one hour. -/
theorem certTemplate_validity_witness :
    (CertTemplate 5 7 7).serialNumber < serialNumberLimit ∧
    (CertTemplate 5 7 7).notBefore = 7 ∧
    (CertTemplate 5 7 7).notAfter = 7 + timeHour ∧
    (CertTemplate 5 7 7).notBefore + timeHour ≤ (CertTemplate 5 7 7).notAfter ∧
    (7 = 7 → (CertTemplate 5 7 7).notAfter = (CertTemplate 5 7 7).notBefore + timeHour) :=
  certTemplate_validity 5 7 7 (Nat.le_refl 7)

end CfRouting
